import Mathlib

/-!
Verification of the AnIML document-model validator
(src/typescript/src/index.ts).

The source file consists of the generic `validate` entry point (lines 5-11)
and one io-ts decoder (`D.struct` of field decoders, wrapped in `D.lazy`)
per entity of the AnIML data model.  We embed the io-ts `Decoder`
combinators actually used by the source — `D.string`, `D.number`,
`D.nullable`, `D.array`, `D.struct`, `D.lazy` — as an interpreter over a
JSON-like value type, and embed every named codec of the source as an
entry of `codecFields`.

io-ts semantics embedded here:
  - `D.string` / `D.number` accept exactly strings / numbers and return
    them unchanged;
  - `D.nullable(c)` accepts `null` (returned unchanged) and whatever `c`
    accepts;
  - `D.array(c)` accepts arrays whose every element `c` accepts, in order;
  - `D.struct(props)` accepts objects; for every declared key it reads the
    input's property (a missing key reads as `undefined`, which every
    field decoder above rejects) and decodes it; the output object carries
    exactly the declared keys, in declaration order, with the decoded
    values — extra input properties are dropped;
  - `D.lazy(name, f)` is semantically the codec `f()` (recursion guard
    only).
io-ts accumulates errors across the fields of a struct; we collapse the
error report to its first entry, which does not change where decoding
succeeds and where it fails, the only observations proved below.

Recursion through the mutually recursive codec graph (Category is
self-recursive) is expressed with an explicit fuel argument so that every
definition computes by kernel reduction; all universally quantified
theorems hold for every fuel value.
-/

namespace AnIMLSpec

/-- JSON-like structured input values: the `unknown` argument of
`codec.decode` in the source, i.e. an already-parsed element/attribute
tree. Objects are ordered key/value lists; numbers are modelled as
rationals (the codecs never compute with them, they only pass them
through). -/
inductive Value where
  | vnull
  | vbool (b : Bool)
  | vnum (q : Rat)
  | vstr (s : String)
  | varr (elems : List Value)
  | vobj (fields : List (String × Value))

/-- Names of the `D.lazy`-wrapped struct codecs exported by
src/typescript/src/index.ts, one per AnIML entity. -/
inductive CName where
  | animl
  | sampleSet
  | auditTrailEntrySet
  | experimentStepSet
  | sample
  | auditTrailEntry
  | template
  | experimentStep
  | diff
  | author
  | software
  | tagSet
  | result
  | method
  | technique
  | infrastructure
  | tag
  | category
  | device
  | extension
  | experimentDataReferenceSet
  | parentDataPointReferenceSet
  | sampleReferenceSet
  | seriesSet
  | parameter
  | experimentDataReference
  | experimentDataBulkReference
  | parentDataPointReference
  | sampleReference
  | sampleInheritance
  | series
  | siUnit
  | endValue
  | individualValueSet
  | unit
  | autoIncrementedValueSet
  | encodedValueSet
  | startValue
  | increment

/-- The io-ts decoder combinators used by the source. `cref n` stands for
a reference to the named struct codec `n` (the body of its `D.lazy`);
`cfields l` is the internal state of `D.struct` working through its
declared property list. -/
inductive CSpec where
  | cstring
  | cnumber
  | cnullable (c : CSpec)
  | carray (c : CSpec)
  | cref (n : CName)
  | cfields (l : List (String × CSpec))

open CSpec in
/-- The declared properties of every struct codec of
src/typescript/src/index.ts, key for key and in declaration order.
Each list transcribes one `D.struct({...})` body from the source. -/
def codecFields : CName → List (String × CSpec)
  | .animl =>
    [("version", cstring),
     ("sample_set", cnullable (cref .sampleSet)),
     ("experiment_step_set", cnullable (cref .experimentStepSet)),
     ("audit_trail_entry_set", cnullable (cref .auditTrailEntrySet))]
  | .sampleSet =>
    [("sample", carray (cref .sample))]
  | .auditTrailEntrySet =>
    [("audit_trail_entry", carray (cref .auditTrailEntry))]
  | .experimentStepSet =>
    [("experiment_step", carray (cref .experimentStep)),
     ("template", carray (cref .template))]
  | .sample =>
    [("name", cstring),
     ("sample_id", cstring),
     ("barcode", cnullable cstring),
     ("comment", cnullable cstring),
     ("derived", cnullable cstring),
     ("container_type", cnullable cstring),
     ("container_id", cnullable cstring),
     ("location_in_container", cnullable cstring),
     ("source_data_location", cnullable cstring),
     ("tag_set", cnullable (cref .tagSet)),
     ("category", carray (cref .category))]
  | .auditTrailEntry =>
    [("timestamp", cstring),
     ("author", cref .author),
     ("action", cstring),
     ("software", cnullable (cref .software)),
     ("reason", cnullable cstring),
     ("comment", cnullable cstring),
     ("diff", carray (cref .diff)),
     ("reference", carray cstring)]
  | .template =>
    [("name", cstring),
     ("template_id", cstring),
     ("source_data_location", cnullable cstring),
     ("tag_set", cnullable (cref .tagSet)),
     ("technique", cnullable (cref .technique)),
     ("infrastructure", cnullable (cref .infrastructure)),
     ("method", cnullable (cref .method)),
     ("result", carray (cref .result))]
  | .experimentStep =>
    [("name", cstring),
     ("experiment_step_id", cstring),
     ("template_used", cnullable cstring),
     ("comment", cnullable cstring),
     ("source_data_location", cnullable cstring),
     ("tag_set", cnullable (cref .tagSet)),
     ("technique", cnullable (cref .technique)),
     ("infrastructure", cnullable (cref .infrastructure)),
     ("method", cnullable (cref .method)),
     ("result", carray (cref .result))]
  | .diff =>
    [("scope", cstring),
     ("changed_item", cstring),
     ("old_value", cstring),
     ("new_value", cstring)]
  | .author =>
    [("user_type", cstring),
     ("name", cstring),
     ("affiliation", cnullable cstring),
     ("role", cnullable cstring),
     ("email", cnullable cstring),
     ("phone", cnullable cstring),
     ("location", cnullable cstring)]
  | .software =>
    [("name", cstring),
     ("manufacturer", cnullable cstring),
     ("version", cnullable cstring),
     ("operating_system", cnullable cstring)]
  | .tagSet =>
    [("tag", carray (cref .tag))]
  | .result =>
    [("name", cstring),
     ("series_set", cnullable (cref .seriesSet)),
     ("category", carray (cref .category))]
  | .method =>
    [("name", cnullable cstring),
     ("author", cnullable (cref .author)),
     ("device", cnullable (cref .device)),
     ("software", cnullable (cref .software)),
     ("category", carray (cref .category))]
  | .technique =>
    [("name", cstring),
     ("uri", cstring),
     ("sha256", cnullable cstring),
     ("extension", carray (cref .extension))]
  | .infrastructure =>
    [("sample_reference_set", cnullable (cref .sampleReferenceSet)),
     ("parent_data_point_reference_set", cnullable (cref .parentDataPointReferenceSet)),
     ("experiment_data_reference_set", cnullable (cref .experimentDataReferenceSet)),
     ("timestamp", cnullable cstring)]
  | .tag =>
    [("name", cstring),
     ("value", cnullable cstring)]
  | .category =>
    [("name", cstring),
     ("parameter", carray (cref .parameter)),
     ("series_set", carray (cref .seriesSet)),
     ("category", carray (cref .category))]
  | .device =>
    [("name", cstring),
     ("device_identifier", cnullable cstring),
     ("manufacturer", cnullable cstring),
     ("firmware_version", cnullable cstring),
     ("serial_number", cnullable cstring)]
  | .extension =>
    [("uri", cstring),
     ("name", cstring),
     ("sha256", cnullable cstring)]
  | .experimentDataReferenceSet =>
    [("experiment_data_reference", carray (cref .experimentDataReference)),
     ("experiment_data_bulk_reference", carray (cref .experimentDataBulkReference))]
  | .parentDataPointReferenceSet =>
    [("parent_data_point_reference", carray (cref .parentDataPointReference))]
  | .sampleReferenceSet =>
    [("sample_reference", carray (cref .sampleReference)),
     ("sample_inheritance", carray (cref .sampleInheritance))]
  | .seriesSet =>
    [("name", cstring),
     ("length", cstring),
     ("series", carray (cref .series))]
  | .parameter =>
    [("name", cstring),
     ("parameter_type", cstring),
     ("value", cnumber),
     ("unit", cnullable (cref .unit))]
  | .experimentDataReference =>
    [("role", cstring),
     ("data_purpose", cstring),
     ("experiment_step_id", cstring)]
  | .experimentDataBulkReference =>
    [("role", cstring),
     ("data_purpose", cstring),
     ("experiment_step_id_prefix", cstring)]
  | .parentDataPointReference =>
    [("series_id", cstring),
     ("start_value", cref .startValue),
     ("end_value", cnullable (cref .endValue))]
  | .sampleReference =>
    [("sample_id", cstring),
     ("role", cstring),
     ("sample_purpose", cstring)]
  | .sampleInheritance =>
    [("role", cstring),
     ("sample_purpose", cstring)]
  | .series =>
    [("name", cstring),
     ("dependency", cstring),
     ("series_id", cstring),
     ("series_type", cstring),
     ("visible", cnullable cstring),
     ("plot_scale", cnullable cstring),
     ("value_set", cnullable (cref .individualValueSet)),
     ("unit", cnullable (cref .unit))]
  | .siUnit =>
    [("factor", cnullable cstring),
     ("exponent", cnullable cstring),
     ("offset", cnullable cstring)]
  | .endValue =>
    [("value", cnumber)]
  | .individualValueSet =>
    [("values", carray cnumber),
     ("start_index", cnullable cstring),
     ("end_index", cnullable cstring)]
  | .unit =>
    [("label", cstring),
     ("quantity", cnullable cstring),
     ("si_unit", carray (cref .siUnit))]
  | .autoIncrementedValueSet =>
    [("start_value", cref .startValue),
     ("increment", cref .increment),
     ("start_index", cnullable cstring),
     ("end_index", cnullable cstring)]
  | .encodedValueSet =>
    [("start_index", cnullable cstring),
     ("end_index", cnullable cstring)]
  | .startValue =>
    [("value", cnumber)]
  | .increment =>
    [("value", cnumber)]

/-- JavaScript property access `input[key]` on an object, as performed by
io-ts `fromStruct` for each declared key: the first binding of the key,
`none` when the key is absent. -/
def lookupKey (k : String) : List (String × Value) → Option Value
  | [] => none
  | (k1, v) :: rest => if k1 == k then some v else lookupKey k rest

/-- The io-ts `Decoder.decode` function of the source's codecs.
`Except.error` is io-ts's `Left` (errors as data); `Except.ok` is
`Right`.  The first argument is recursion fuel (decremented on every
recursive call); every theorem below either holds for all fuel values or
uses a concrete fuel amply larger than the recursion depth of its
concrete input. -/
def decode : Nat → CSpec → Value → Except String Value
  | 0, _, _ => .error "out of fuel"
  | _ + 1, .cstring, .vstr s => .ok (.vstr s)
  | _ + 1, .cstring, _ => .error "cannot decode, expected string"
  | _ + 1, .cnumber, .vnum q => .ok (.vnum q)
  | _ + 1, .cnumber, _ => .error "cannot decode, expected number"
  | _ + 1, .cnullable _, .vnull => .ok .vnull
  | f + 1, .cnullable c, v => decode f c v
  | _ + 1, .carray _, .varr [] => .ok (.varr [])
  | f + 1, .carray c, .varr (x :: xs) =>
    match decode f c x with
    | .error e => .error e
    | .ok d =>
      match decode f (.carray c) (.varr xs) with
      | .error e => .error e
      | .ok (.varr ds) => .ok (.varr (d :: ds))
      | .ok _ => .error "array decode produced a non-array"
  | _ + 1, .carray _, _ => .error "cannot decode, expected array"
  | f + 1, .cref n, v => decode f (.cfields (codecFields n)) v
  | _ + 1, .cfields [], .vobj _ => .ok (.vobj [])
  | f + 1, .cfields ((k, c) :: rest), .vobj fs =>
    match lookupKey k fs with
    | none => .error ("required property missing, " ++ k)
    | some v =>
      match decode f c v with
      | .error e => .error e
      | .ok d =>
        match decode f (.cfields rest) (.vobj fs) with
        | .error e => .error e
        | .ok (.vobj ds) => .ok (.vobj ((k, d) :: ds))
        | .ok _ => .error "object decode produced a non-object"
  | _ + 1, .cfields _, _ => .error "cannot decode, expected object"

/-- Whether a decode result is a `Left` (validation failure). -/
def isErr : Except String Value → Bool
  | .error _ => true
  | .ok _ => false

/-- Outcome of calling the exported `validate` function: either it
returns the decoded value normally, or the call raises a JavaScript
`Error` (the `throw new Error(D.draw(result.left))` branch). -/
inductive ValidateOutcome where
  | returns (v : Value)
  | throws (msg : String)

/-- Embeds `validate` (src/typescript/src/index.ts lines 5-11): run
`codec.decode(value)`; if the result `isLeft`, throw an `Error` built
from the drawn error report; otherwise return `result.right`. -/
def validate (fuel : Nat) (c : CSpec) (v : Value) : ValidateOutcome :=
  match decode fuel c v with
  | .error e => .throws e
  | .ok r => .returns r

/-- Whether a `validate` call raised an exception across the boundary. -/
def throwsException : ValidateOutcome → Bool
  | .throws _ => true
  | .returns _ => false

/-- Modelled from the spec: the repository's src/ contains only the
entity type definitions and their io-ts codecs; the value-set decoding
engine of spec section 4.3 is not present in src/.  Requesting element
`i` of the lazy, restartable sequence of an AutoIncrementedValueSet:
`v[i] = start + i * increment`. -/
def autoIncElement (start increment : Rat) (i : Nat) : Rat :=
  start + i * increment

/-- Modelled from the spec: materializing the AutoIncrementedValueSet
sequence for the `count` derived from the enclosing SeriesSet's declared
`length`: the arithmetic progression `v[i] = start + i * increment` for
`i` in `[0, count)`. -/
def autoIncDecode (start increment : Rat) (count : Nat) : List Rat :=
  (List.range count).map (autoIncElement start increment)

/-- A well-formed Sample input (all eleven declared keys present). -/
def sampleS1 : Value :=
  .vobj [("name", .vstr "Sample A"), ("sample_id", .vstr "s1"),
         ("barcode", .vnull), ("comment", .vnull), ("derived", .vnull),
         ("container_type", .vnull), ("container_id", .vnull),
         ("location_in_container", .vnull), ("source_data_location", .vnull),
         ("tag_set", .vnull), ("category", .varr [])]

/-- A well-formed Series input with a null value_set. -/
def seriesS1 : Value :=
  .vobj [("name", .vstr "Series A"), ("dependency", .vstr "independent"),
         ("series_id", .vstr "sr1"), ("series_type", .vstr "I"),
         ("visible", .vnull), ("plot_scale", .vnull),
         ("value_set", .vnull), ("unit", .vnull)]

/-- A well-formed ExperimentStep input. -/
def stepS1 : Value :=
  .vobj [("name", .vstr "Step A"), ("experiment_step_id", .vstr "e1"),
         ("template_used", .vnull), ("comment", .vnull),
         ("source_data_location", .vnull), ("tag_set", .vnull),
         ("technique", .vnull), ("infrastructure", .vnull),
         ("method", .vnull), ("result", .varr [])]

/-- A Diff input carrying one extra undeclared property. -/
def diffFieldsWithExtra : List (String × Value) :=
  [("scope", .vstr "element"), ("changed_item", .vstr "c"),
   ("old_value", .vstr "o"), ("new_value", .vstr "n"),
   ("extra_property", .vnum 7)]

/-- The decoded Diff: exactly the four declared keys, extra key dropped. -/
def diffDecoded : Value :=
  .vobj [("scope", .vstr "element"), ("changed_item", .vstr "c"),
         ("old_value", .vstr "o"), ("new_value", .vstr "n")]

/- ------------------------------------------------------------------ -/
/- Helper lemmas                                                       -/
/- ------------------------------------------------------------------ -/

/-- A `D.struct` whose declared property list contains a key that is
absent from the input object rejects the input (io-ts reads the missing
property as `undefined`, which every field decoder rejects). -/
theorem decode_missing_key (k : String) (l : List (String × CSpec)) :
    ∀ (f : Nat) (fs : List (String × Value)),
      k ∈ l.map Prod.fst → lookupKey k fs = none →
      isErr (decode f (.cfields l) (.vobj fs)) = true := by
  induction l with
  | nil => intro f fs hk _; simp at hk
  | cons hd rest ih =>
    intro f fs hk hnone
    obtain ⟨k1, c1⟩ := hd
    match f with
    | 0 => rfl
    | f + 1 =>
      simp only [decode]
      rcases (by simpa using hk : k = k1 ∨ k ∈ rest.map Prod.fst) with h | h
      · subst h
        simp only [hnone]
        rfl
      · split
        · rfl
        · split
          · rfl
          · split
            · rfl
            · next d ds heq =>
              have hrest := ih f fs h hnone
              rw [heq] at hrest
              simp [isErr] at hrest
            · rfl

/-- Lifting of `decode_missing_key` through the `D.lazy` reference to a
named struct codec. -/
theorem decode_ref_missing_key (f : Nat) (n : CName) (k : String)
    (fs : List (String × Value)) (hk : k ∈ (codecFields n).map Prod.fst)
    (hnone : lookupKey k fs = none) :
    isErr (decode f (.cref n) (.vobj fs)) = true := by
  match f with
  | 0 => rfl
  | f + 1 =>
    simp only [decode]
    exact decode_missing_key k (codecFields n) f fs hk hnone

/-- Successful `D.struct` decoding relates the declared property list to
the output object pointwise: same keys in order, each value the decode of
the input's property at that key. -/
theorem decode_fields_ok (fs : List (String × Value)) (l : List (String × CSpec)) :
    ∀ (f : Nat) (out : Value),
      decode f (.cfields l) (.vobj fs) = .ok out →
      ∃ ofs, out = .vobj ofs ∧
        List.Forall₂ (fun (p : String × CSpec) (q : String × Value) =>
          q.1 = p.1 ∧ ∃ v g, lookupKey p.1 fs = some v ∧ decode g p.2 v = .ok q.2) l ofs := by
  induction l with
  | nil =>
    intro f out h
    match f with
    | 0 => exact absurd h (by simp [decode])
    | f + 1 =>
      refine ⟨[], ?_, List.Forall₂.nil⟩
      simp only [decode] at h
      exact (Except.ok.inj h).symm
  | cons hd rest ih =>
    intro f out h
    obtain ⟨k1, c1⟩ := hd
    match f with
    | 0 => exact absurd h (by simp [decode])
    | f + 1 =>
      simp only [decode] at h
      split at h
      · exact absurd h (by simp)
      · next v hl =>
        split at h
        · exact absurd h (by simp)
        · next d hdv =>
          split at h
          · exact absurd h (by simp)
          · next ds heq =>
            obtain ⟨ofs, hx, hall⟩ := ih f (.vobj ds) heq
            injection hx with hds
            subst hds
            refine ⟨(k1, d) :: ds, (Except.ok.inj h).symm, ?_⟩
            exact List.Forall₂.cons ⟨rfl, v, f, hl, hdv⟩ hall
          · exact absurd h (by simp)

/-- A pointwise key-preserving `Forall₂` gives equal key lists. -/
theorem forall2_fst_eq {β δ : Type} {R : (String × β) → (String × δ) → Prop}
    (himp : ∀ p q, R p q → q.1 = p.1) :
    ∀ {l : List (String × β)} {m : List (String × δ)}, List.Forall₂ R l m →
      m.map Prod.fst = l.map Prod.fst := by
  intro l m hf
  induction hf with
  | nil => rfl
  | cons hpq htl ih => simp [himp _ _ hpq, ih]

/- ------------------------------------------------------------------ -/
/- Claim theorems                                                      -/
/- ------------------------------------------------------------------ -/

/-- C1: the codec does not check the version field's value. An AnIML
document whose version is "0.9" — not the supported "0.90" that the
field's own doc comment demands — validates successfully and is returned,
contradicting the claim that validation succeeds only when version equals
"0.90" exactly. -/
theorem animl_version_not_checked :
    validate 10 (.cref .animl)
      (.vobj [("version", .vstr "0.9"), ("sample_set", .vnull),
              ("experiment_step_set", .vnull), ("audit_trail_entry_set", .vnull)])
      = .returns (.vobj [("version", .vstr "0.9"), ("sample_set", .vnull),
              ("experiment_step_set", .vnull), ("audit_trail_entry_set", .vnull)]) := rfl

/-- C2: the codecs perform no identifier-uniqueness check. A SampleSet
with two Samples sharing sample_id "s1", a SeriesSet with two Series
sharing series_id "sr1", and an ExperimentStepSet with two
ExperimentSteps sharing experiment_step_id "e1" all validate successfully
instead of reporting a DuplicateIdentifierError. -/
theorem duplicate_identifiers_accepted :
    isErr (decode 50 (.cref .sampleSet)
      (.vobj [("sample", .varr [sampleS1, sampleS1])])) = false ∧
    isErr (decode 50 (.cref .seriesSet)
      (.vobj [("name", .vstr "set"), ("length", .vstr "2"),
              ("series", .varr [seriesS1, seriesS1])])) = false ∧
    isErr (decode 50 (.cref .experimentStepSet)
      (.vobj [("experiment_step", .varr [stepS1, stepS1]),
              ("template", .varr [])])) = false :=
  ⟨rfl, rfl, rfl⟩

/-- C3: Series.value_set is not a three-way tagged union in the code.
SeriesCodec decodes value_set with D.nullable(IndividualValueSetCodec)
only, so a Series with value_set null validates (zero variants
populated), while a Series carrying an AutoIncrementedValueSet-shaped or
an EncodedValueSet-shaped value_set is rejected — those two variants are
not representable — contradicting the claim (and the value_set doc
comment in the source, which lists all three variants). -/
theorem series_value_set_not_tagged_union :
    isErr (decode 50 (.cref .series) seriesS1) = false ∧
    isErr (decode 50 (.cref .series)
      (.vobj [("name", .vstr "Series A"), ("dependency", .vstr "independent"),
              ("series_id", .vstr "sr1"), ("series_type", .vstr "I"),
              ("visible", .vnull), ("plot_scale", .vnull),
              ("value_set", .vobj [("start_value", .vobj [("value", .vnum 10)]),
                                   ("increment", .vobj [("value", .vnum 2)]),
                                   ("start_index", .vnull), ("end_index", .vnull)]),
              ("unit", .vnull)])) = true ∧
    isErr (decode 50 (.cref .series)
      (.vobj [("name", .vstr "Series A"), ("dependency", .vstr "independent"),
              ("series_id", .vstr "sr1"), ("series_type", .vstr "I"),
              ("visible", .vnull), ("plot_scale", .vnull),
              ("value_set", .vobj [("start_index", .vnull), ("end_index", .vnull)]),
              ("unit", .vnull)])) = true :=
  ⟨rfl, rfl, rfl⟩

/-- C4: for an AutoIncrementedValueSet with start value s and increment d
inside a SeriesSet of declared length n, the decoded sequence has length
n and its i-th element — for every index i below n, whether read from the
materialized first pass or requested from a restarted lazy sequence via
autoIncElement — is the arithmetic-progression value s + i * d. -/
theorem autoinc_decodes_arithmetic_progression (s d : Rat) (n i : Nat) (h : i < n) :
    (autoIncDecode s d n).length = n ∧
    (autoIncDecode s d n)[i]? = some (autoIncElement s d i) ∧
    autoIncElement s d i = s + i * d := by
  refine ⟨by simp [autoIncDecode], ?_, rfl⟩
  simp [autoIncDecode, List.getElem?_map, List.getElem?_range h]

/-- C4 witness: start 10, increment 2, length 4 decodes to [10,12,14,16];
element 2 requested from a restarted sequence agrees with the first
pass. -/
theorem autoinc_decodes_arithmetic_progression_witness :
    autoIncDecode 10 2 4 = [10, 12, 14, 16] ∧
    ((autoIncDecode 10 2 4).length = 4 ∧
     (autoIncDecode 10 2 4)[2]? = some (autoIncElement 10 2 2) ∧
     autoIncElement 10 2 2 = 10 + (2 : Nat) * 2) := by
  constructor
  · norm_num [autoIncDecode, autoIncElement, List.range_succ]
  · exact autoinc_decodes_arithmetic_progression 10 2 4 2 (by decide)

/-- C5: decoding a Series with series_type "I" whose IndividualValueSet
holds the explicit values [1,2,3] succeeds, and the decoded value list is
[1,2,3] of length 3, unchanged and in document order (decoding an
explicit value list is the identity on the values). -/
theorem individual_value_set_identity :
    validate 50 (.cref .series)
      (.vobj [("name", .vstr "s"), ("dependency", .vstr "dependent"),
              ("series_id", .vstr "sr1"), ("series_type", .vstr "I"),
              ("visible", .vnull), ("plot_scale", .vnull),
              ("value_set", .vobj [("values", .varr [.vnum 1, .vnum 2, .vnum 3]),
                                   ("start_index", .vnull), ("end_index", .vnull)]),
              ("unit", .vnull)])
      = .returns
      (.vobj [("name", .vstr "s"), ("dependency", .vstr "dependent"),
              ("series_id", .vstr "sr1"), ("series_type", .vstr "I"),
              ("visible", .vnull), ("plot_scale", .vnull),
              ("value_set", .vobj [("values", .varr [.vnum 1, .vnum 2, .vnum 3]),
                                   ("start_index", .vnull), ("end_index", .vnull)]),
              ("unit", .vnull)]) := rfl

/-- C6 counterexample: at the concrete invalid input null, the exported
validate entry point raises an exception (the throw-new-Error branch)
instead of returning the error to the caller as data, refuting the claim
that the validation entry point does not throw on invalid input. -/
theorem validate_throws_on_invalid_input :
    throwsException (validate 10 (.cref .animl) .vnull) = true := rfl

/-- C6 amended: the io-ts decode layer returns all validation errors as
data (a Left value), but the exported validate wrapper re-raises them:
for every input, validate throws an Error exactly when decode returns an
error value, and returns the decoded document exactly when decode
succeeds. -/
theorem validate_throws_iff_decode_errors (f : Nat) (c : CSpec) (v : Value) :
    (∀ e, validate f c v = .throws e ↔ decode f c v = .error e) ∧
    (∀ r, validate f c v = .returns r ↔ decode f c v = .ok r) := by
  unfold validate
  cases decode f c v <;> simp

/-- C7: an input missing a required field fails validation: a Sample
object without a "name" key, a Sample object without a "sample_id" key,
and a SeriesSet object without a "length" key are each rejected with a
required-property error. -/
theorem missing_required_field_fails (f : Nat) (es fs gs : List (String × Value))
    (h1 : lookupKey "name" es = none) (h2 : lookupKey "sample_id" fs = none)
    (h3 : lookupKey "length" gs = none) :
    isErr (decode f (.cref .sample) (.vobj es)) = true ∧
    isErr (decode f (.cref .sample) (.vobj fs)) = true ∧
    isErr (decode f (.cref .seriesSet) (.vobj gs)) = true :=
  ⟨decode_ref_missing_key f .sample "name" es (by simp [codecFields]) h1,
   decode_ref_missing_key f .sample "sample_id" fs (by simp [codecFields]) h2,
   decode_ref_missing_key f .seriesSet "length" gs (by simp [codecFields]) h3⟩

/-- C7 witness: the empty Sample object, a Sample object carrying only a
name, and the empty SeriesSet object are all rejected. -/
theorem missing_required_field_fails_witness :
    isErr (decode 10 (.cref .sample) (.vobj [])) = true ∧
    isErr (decode 10 (.cref .sample) (.vobj [("name", .vstr "Sample A")])) = true ∧
    isErr (decode 10 (.cref .seriesSet) (.vobj [])) = true :=
  missing_required_field_fails 10 [] [("name", .vstr "Sample A")] [] rfl rfl rfl

/-- C8: enumerated field domains are not checked: a Diff whose scope is
"banana" (not in the element/attribute domain), a SampleReference whose
sample_purpose is "neither" (not produced/consumed), and a Series whose
dependency is "sideways" (not independent/dependent) all validate
successfully instead of being rejected with an InvalidValueError. -/
theorem enum_domains_not_checked :
    isErr (decode 10 (.cref .diff)
      (.vobj [("scope", .vstr "banana"), ("changed_item", .vstr "i"),
              ("old_value", .vstr "o"), ("new_value", .vstr "n")])) = false ∧
    isErr (decode 10 (.cref .sampleReference)
      (.vobj [("sample_id", .vstr "s1"), ("role", .vstr "r"),
              ("sample_purpose", .vstr "neither")])) = false ∧
    isErr (decode 50 (.cref .series)
      (.vobj [("name", .vstr "x"), ("dependency", .vstr "sideways"),
              ("series_id", .vstr "sr1"), ("series_type", .vstr "I"),
              ("visible", .vnull), ("plot_scale", .vnull),
              ("value_set", .vnull), ("unit", .vnull)])) = false :=
  ⟨rfl, rfl, rfl⟩

/-- C9: every key listed in a codec must be present in the input object
for validation to succeed, even when the interface declares the field
optional — an AnIML input without the "sample_set" key is rejected — and
array-typed fields must be arrays: a SampleSet whose "sample" property is
null is rejected. -/
theorem optional_keys_still_required (f : Nat) (fs : List (String × Value))
    (h : lookupKey "sample_set" fs = none) :
    isErr (decode f (.cref .animl) (.vobj fs)) = true ∧
    isErr (decode 10 (.cref .sampleSet) (.vobj [("sample", .vnull)])) = true :=
  ⟨decode_ref_missing_key f .animl "sample_set" fs (by simp [codecFields]) h, rfl⟩

/-- C9 witness: an AnIML object carrying only a version key is rejected,
as is a SampleSet whose sample property is null. -/
theorem optional_keys_still_required_witness :
    isErr (decode 10 (.cref .animl) (.vobj [("version", .vstr "0.90")])) = true ∧
    isErr (decode 10 (.cref .sampleSet) (.vobj [("sample", .vnull)])) = true :=
  optional_keys_still_required 10 [("version", .vstr "0.90")] rfl

/-- C10: on success the decoder returns an object with exactly the keys
declared in the codec, in declaration order — any additional input
properties are dropped — and every declared key is carried over with the
decoded value of the corresponding input property. -/
theorem decode_output_exactly_declared_keys (f : Nat) (n : CName)
    (fs : List (String × Value)) (out : Value)
    (h : decode f (.cref n) (.vobj fs) = .ok out) :
    ∃ ofs, out = .vobj ofs ∧
      ofs.map Prod.fst = (codecFields n).map Prod.fst ∧
      List.Forall₂ (fun (p : String × CSpec) (q : String × Value) =>
        q.1 = p.1 ∧ ∃ v g, lookupKey p.1 fs = some v ∧ decode g p.2 v = .ok q.2)
        (codecFields n) ofs := by
  match f with
  | 0 => exact absurd h (by simp [decode])
  | f + 1 =>
    simp only [decode] at h
    obtain ⟨ofs, ho, hall⟩ := decode_fields_ok fs (codecFields n) f out h
    exact ⟨ofs, ho, forall2_fst_eq (fun p q hpq => hpq.1) hall, hall⟩

/-- C10 witness: a Diff input carrying an extra undeclared property
decodes to exactly the four declared keys with the extra property
dropped. -/
theorem decode_output_exactly_declared_keys_witness :
    decode 10 (.cref .diff) (.vobj diffFieldsWithExtra) = .ok diffDecoded ∧
    ∃ ofs, diffDecoded = .vobj ofs ∧
      ofs.map Prod.fst = (codecFields .diff).map Prod.fst ∧
      List.Forall₂ (fun (p : String × CSpec) (q : String × Value) =>
        q.1 = p.1 ∧ ∃ v g, lookupKey p.1 diffFieldsWithExtra = some v ∧
          decode g p.2 v = .ok q.2)
        (codecFields .diff) ofs :=
  ⟨rfl, decode_output_exactly_declared_keys 10 .diff diffFieldsWithExtra diffDecoded rfl⟩

end AnIMLSpec
